import Mathlib

/-!
Formal model of the webwaka-core-identity repository.

The definitions below are shallow embeddings of the TypeScript source:
phone-utils (normalizeNigerianPhone, formatNigerianPhone), the in-memory
storage backends (JS Map based, keyed by colon-joined composite strings),
the Clerk adapter (claims extraction, mock adapter), and the
IdentityService operations (user lookup, session validation, identity
resolution, tenant-context assertion, logout) in both standalone and
delegated (Clerk) mode.

Conventions:
- Strings manipulated character by character (phone numbers) are List Char;
  identifiers and keys are String.
- JS Date instants are Int milliseconds; Clerk claim timestamps are Int
  seconds, exactly as in the source.
- Thrown JS errors are Except.error carrying the message; resolved
  promises are Except.ok.  A rejected promise awaited inside a method
  propagates, which the explicit match-on-error translation mirrors.
- The zod length schemas z.string().min(1).max(255) are embedded as
  validIdString; the zod email format schema is an external collaborator
  and is taken as a Bool-valued parameter where the source uses it.
-/

/-! Phone utilities, from dist/phone-utils.js. -/

/-- Characters removed by the cleaning regex in normalizeNigerianPhone
(whitespace and the punctuation class: space, tab, newline, carriage
return, hyphen, parentheses, dot). -/
def stripPhonePunct (c : Char) : Bool :=
  c == ' ' || c == '\t' || c == '\n' || c == '\r' || c == '-' || c == '(' || c == ')' || c == '.'

/-- Cleaning step of normalizeNigerianPhone: drop whitespace and common
punctuation before pattern matching. -/
def stripPhone (s : List Char) : List Char :=
  s.filter (fun c => !(stripPhonePunct c))

/-- Digit test matching the regexes of the source (the d character class). -/
def isDigitChar (c : Char) : Bool := c.isDigit

/-- Error message thrown by normalizeNigerianPhone (the source appends the
offending input to it; the constant part is kept). -/
def invalidPhoneMsg : String := "Invalid Nigerian phone number"

/-- Error message thrown by formatNigerianPhone. -/
def invalidE164Msg : String := "Invalid E.164 Nigerian phone number"

/-- Embeds normalizeNigerianPhone from dist/phone-utils.js: clean the
input, then try the four patterns in source order (already E.164 with
leading plus-234; 234 without the plus; 11 digits starting with 0; 10
digits without the trunk 0). -/
def normalizeNigerianPhone (input : List Char) : Except String (List Char) :=
  let cleaned := stripPhone input
  if cleaned.take 4 = ['+', '2', '3', '4'] then
    if (cleaned.drop 4).length = 10 ∧ (cleaned.drop 4).all isDigitChar = true then
      Except.ok cleaned
    else Except.error invalidPhoneMsg
  else if cleaned.take 3 = ['2', '3', '4'] then
    if (cleaned.drop 3).length = 10 ∧ (cleaned.drop 3).all isDigitChar = true then
      Except.ok ('+' :: cleaned)
    else Except.error invalidPhoneMsg
  else if cleaned.take 1 = ['0'] ∧ cleaned.length = 11 ∧ cleaned.all isDigitChar = true then
    Except.ok ('+' :: '2' :: '3' :: '4' :: cleaned.drop 1)
  else if cleaned.length = 10 ∧ cleaned.all isDigitChar = true then
    Except.ok ('+' :: '2' :: '3' :: '4' :: cleaned)
  else Except.error invalidPhoneMsg

/-- Embeds formatNigerianPhone from dist/phone-utils.js: requires an exact
14-character E.164 string starting with plus-234 and inserts the two
display spaces. -/
def formatNigerianPhone (phone : List Char) : Except String (List Char) :=
  if phone.take 4 = ['+', '2', '3', '4'] ∧ phone.length = 14 then
    let digits := phone.drop 4
    Except.ok (['+', '2', '3', '4', ' '] ++ digits.take 3 ++ [' '] ++
      ((digits.drop 3).take 3) ++ [' '] ++ digits.drop 6)
  else Except.error invalidE164Msg

/-! Data model, from src/types.ts and dist/storage.d.ts.  Free-form
metadata maps and the raw Date wrappers carry no behaviour used by the
verified operations; Date instants become Int milliseconds. -/

/-- UserProfile record (metadata map omitted as behaviourally inert). -/
structure UserProfile where
  userId : String
  tenantId : String
  phone : String
  email : Option String := none
  displayName : Option String := none
  createdAt : Int := 0
  updatedAt : Int := 0
deriving DecidableEq, Repr

/-- SessionContext record of standalone-mode sessions. -/
structure SessionContext where
  sessionId : String
  userId : String
  tenantId : String
  roles : List String
  issuedAt : Int
  expiresAt : Int
deriving DecidableEq, Repr

/-- SessionValidation: the tagged result of validateSession (the source
builds exactly the two shapes valid-with-context and invalid-with-reason). -/
inductive SessionValidation where
  | valid (context : SessionContext)
  | invalid (reason : String)
deriving DecidableEq, Repr

/-- IdentityResolution, the caller-facing result of resolveIdentity. -/
structure IdentityResolution where
  userId : String
  tenantId : String
  roles : List String
  profile : UserProfile
deriving DecidableEq, Repr

/-- TenantContext, the minimal result of assertTenantContext. -/
structure TenantContext where
  tenantId : String
  userId : String
  roles : List String
  sessionId : String
deriving DecidableEq, Repr

/-- Embeds z.string().min(1).max(255), the shape schema shared by
TenantIdSchema, UserIdSchema and SessionIdSchema in validation.ts. -/
def validIdString (s : String) : Bool :=
  decide (1 ≤ s.length ∧ s.length ≤ 255)

/-! JS Map operations used by the in-memory storage backends, on
association lists: get, set (replace in place or append), delete. -/

/-- Map.get: first entry with the key, if any. -/
def mapGet {α : Type} (m : List (String × α)) (k : String) : Option α :=
  (m.find? (fun p => p.1 == k)).map (fun p => p.2)

/-- Map.set: replace the value under an existing key, else append. -/
def mapSet {α : Type} (m : List (String × α)) (k : String) (v : α) : List (String × α) :=
  if m.any (fun p => p.1 == k) then
    m.map (fun p => if p.1 == k then (k, v) else p)
  else m ++ [(k, v)]

/-- Map.delete: remove the entry under the key. -/
def mapDelete {α : Type} (m : List (String × α)) (k : String) : List (String × α) :=
  m.filter (fun p => !(p.1 == k))

/-! InMemoryUserStorage, from dist/storage.js: one shared map holding the
same profile under a primary key and secondary phone/email keys, all
colon-joined composite strings. -/

namespace InMemoryUserStorage

/-- Primary key: tenantId colon userId. -/
def getKey (tenantId userId : String) : String :=
  tenantId ++ ":" ++ userId

/-- Secondary phone key: tenantId colon phone marker colon phone. -/
def getPhoneKey (tenantId phone : String) : String :=
  tenantId ++ ":phone:" ++ phone

/-- Secondary email key: tenantId colon email marker colon lowercased email. -/
def getEmailKey (tenantId email : String) : String :=
  tenantId ++ ":email:" ++ email.toLower

/-- Storage state: the single users map. -/
abbrev UserMap := List (String × UserProfile)

/-- createUser: reject on primary- or phone-key collision, then insert the
profile under primary, phone and (when present) email keys. -/
def createUser (users : UserMap) (profile : UserProfile) : Except String UserMap :=
  let key := getKey profile.tenantId profile.userId
  let phoneKey := getPhoneKey profile.tenantId profile.phone
  if (mapGet users key).isSome then
    Except.error ("User already exists: " ++ profile.userId)
  else if (mapGet users phoneKey).isSome then
    Except.error ("Phone number already registered: " ++ profile.phone)
  else
    let users1 := mapSet users key profile
    let users2 := mapSet users1 phoneKey profile
    match profile.email with
    | some e => Except.ok (mapSet users2 (getEmailKey profile.tenantId e) profile)
    | none => Except.ok users2

/-- getUser: primary-key lookup. -/
def getUser (users : UserMap) (tenantId userId : String) : Option UserProfile :=
  mapGet users (getKey tenantId userId)

/-- getUserByPhone: phone-key lookup. -/
def getUserByPhone (users : UserMap) (tenantId phone : String) : Option UserProfile :=
  mapGet users (getPhoneKey tenantId phone)

/-- getUserByEmail: email-key lookup. -/
def getUserByEmail (users : UserMap) (tenantId email : String) : Option UserProfile :=
  mapGet users (getEmailKey tenantId email)

end InMemoryUserStorage

/-! Clerk adapter structures, from src/clerk-adapter.ts. -/

/-- Metadata carried inside Clerk session claims; the only key the source
reads is the roles list. -/
structure ClerkMetadata where
  roles : Option (List String) := none
deriving DecidableEq, Repr

/-- ClerkSessionClaims: iat and exp are seconds since epoch. -/
structure ClerkSessionClaims where
  sub : String
  sid : String
  org_id : Option String := none
  org_role : Option String := none
  org_slug : Option String := none
  metadata : Option ClerkMetadata := none
  iat : Int
  exp : Int
deriving DecidableEq, Repr

/-- ClerkUser: email and phone entries are (id, address) pairs;
public and private metadata maps are behaviourally inert and omitted. -/
structure ClerkUser where
  id : String
  primaryEmailAddressId : Option String := none
  primaryPhoneNumberId : Option String := none
  emailAddresses : List (String × String) := []
  phoneNumbers : List (String × String) := []
  firstName : Option String := none
  lastName : Option String := none
  createdAt : Int := 0
  updatedAt : Int := 0
deriving DecidableEq, Repr

/-- ClerkTenantContext, the result of extractTenantContext. -/
structure ClerkTenantContext where
  tenantId : String
  userId : String
  roles : List String
  metadata : ClerkMetadata
  sessionId : String
  issuedAt : Int
  expiresAt : Int
deriving DecidableEq, Repr

/-- Embeds extractTenantContext: primary org role first, then the
metadata roles list in order, no de-duplication; tenant defaults to the
literal default sentinel when no org id is present; second-resolution
timestamps scale to milliseconds. -/
def extractTenantContext (claims : ClerkSessionClaims) : ClerkTenantContext :=
  let primary := match claims.org_role with
    | some r => [r]
    | none => []
  let metadataRoles := (claims.metadata.bind (fun m => m.roles)).getD []
  { tenantId := claims.org_id.getD "default"
    userId := claims.sub
    roles := primary ++ metadataRoles
    metadata := claims.metadata.getD {}
    sessionId := claims.sid
    issuedAt := claims.iat * 1000
    expiresAt := claims.exp * 1000 }

/-- Embeds clerkUserToProfile: primary email by id, primary phone by id
falling back to the first listed phone then the empty string, display
name joining the present name parts, tenant taken from the caller. -/
def clerkUserToProfile (clerkUser : ClerkUser) (tenantId : String) : UserProfile :=
  let primaryEmail := clerkUser.primaryEmailAddressId.bind (fun pid =>
    (clerkUser.emailAddresses.find? (fun e => e.1 == pid)).map (fun e => e.2))
  let primaryPhone := match clerkUser.primaryPhoneNumberId.bind (fun pid =>
      (clerkUser.phoneNumbers.find? (fun p => p.1 == pid)).map (fun p => p.2)) with
    | some p => p
    | none => match clerkUser.phoneNumbers.head? with
      | some p => p.2
      | none => ""
  let nameParts := ((match clerkUser.firstName with
      | some f => [f]
      | none => []) ++ (match clerkUser.lastName with
      | some l => [l]
      | none => [])).filter (fun s => s ≠ "")
  let joined := String.intercalate " " nameParts
  { userId := clerkUser.id
    tenantId := tenantId
    phone := primaryPhone
    email := primaryEmail
    displayName := if joined = "" then none else some joined
    createdAt := clerkUser.createdAt
    updatedAt := clerkUser.updatedAt }

/-- ClerkAdapterInterface: the collaborator the delegated-mode service
calls.  Every operation may reject (Except.error), which an awaiting
caller propagates. -/
structure ClerkAdapterInterface where
  verifySession : String → Except String (Option ClerkSessionClaims)
  getUser : String → Except String (Option ClerkUser)
  getUserByEmail : String → Except String (Option ClerkUser)
  getUserByPhone : String → Except String (Option ClerkUser)
  listOrganizationMembers : String → Except String (List ClerkUser)

/-! MockClerkAdapter state, from src/clerk-adapter.ts: keyed JS maps for
sessions, users, secondary indices and organization member sets. -/

/-- MockClerkAdapter internal state. -/
structure MockClerk where
  sessions : List (String × ClerkSessionClaims) := []
  users : List (String × ClerkUser) := []
  emailIndex : List (String × String) := []
  phoneIndex : List (String × String) := []
  orgMembers : List (String × List String) := []
deriving DecidableEq, Repr

/-- Embeds MockClerkAdapter.verifySession: unknown token yields none; a
known token past its exp (seconds) is deleted and yields none; otherwise
the stored claims come back and the state is untouched.  The now argument
is the current time in seconds. -/
def MockClerk.verifySession (m : MockClerk) (now : Int) (sessionToken : String) :
    Option ClerkSessionClaims × MockClerk :=
  match mapGet m.sessions sessionToken with
  | none => (none, m)
  | some claims =>
    if claims.exp < now then
      (none, { m with sessions := mapDelete m.sessions sessionToken })
    else (some claims, m)

/-! IdentityService operations, from src/identity-service.ts.  The class
dispatches per call on whether a Clerk adapter was configured; the two
branches are embedded as separate functions, Standalone and Clerk
suffixed.  The generic-adapter functions take a ClerkAdapterInterface
value, as the class does; rejected collaborator promises propagate. -/

namespace IdentityService

/-- Standalone branch of getUser: validate the identifier shapes, then a
tenant-scoped storage lookup. -/
def getUserStandalone (users : InMemoryUserStorage.UserMap)
    (tenantId userId : String) : Except String (Option UserProfile) :=
  if validIdString tenantId && validIdString userId then
    Except.ok (InMemoryUserStorage.getUser users tenantId userId)
  else Except.error "InvalidInput"

/-- Embeds isUserInTenant in delegated mode: fetch the full member list of
the tenant organization and test membership by id equality.  A rejecting
directory propagates. -/
def isUserInTenant (adapter : ClerkAdapterInterface) (tenantId userId : String) :
    Except String Bool :=
  match adapter.listOrganizationMembers tenantId with
  | Except.error e => Except.error e
  | Except.ok members => Except.ok (members.any (fun member => member.id == userId))

/-- Delegated branch of getUser: membership check first; only a positive
result fetches the Clerk user and converts it under the requested tenant;
a negative result returns absent. -/
def getUserClerk (adapter : ClerkAdapterInterface) (tenantId userId : String) :
    Except String (Option UserProfile) :=
  if validIdString tenantId && validIdString userId then
    match isUserInTenant adapter tenantId userId with
    | Except.error e => Except.error e
    | Except.ok isMember =>
      if isMember then
        match adapter.getUser userId with
        | Except.error e => Except.error e
        | Except.ok none => Except.ok none
        | Except.ok (some clerkUser) =>
          Except.ok (some (clerkUserToProfile clerkUser tenantId))
      else Except.ok none
  else Except.error "InvalidInput"

/-- Delegated branch of getUserByPhone: normalize the phone, resolve the
user globally through the provider, then gate the result on membership in
the requested tenant. -/
def getUserByPhoneClerk (adapter : ClerkAdapterInterface) (tenantId phone : String) :
    Except String (Option UserProfile) :=
  if validIdString tenantId then
    match normalizeNigerianPhone phone.data with
    | Except.error e => Except.error e
    | Except.ok normalizedPhone =>
      match adapter.getUserByPhone (String.mk normalizedPhone) with
      | Except.error e => Except.error e
      | Except.ok none => Except.ok none
      | Except.ok (some clerkUser) =>
        match isUserInTenant adapter tenantId clerkUser.id with
        | Except.error e => Except.error e
        | Except.ok isMember =>
          if isMember then Except.ok (some (clerkUserToProfile clerkUser tenantId))
          else Except.ok none
  else Except.error "InvalidInput"

/-- Delegated branch of getUserByEmail: same global-resolve-then-gate
order as the phone lookup.  The zod email-format schema is an external
collaborator, taken as the emailOk parameter. -/
def getUserByEmailClerk (emailOk : String → Bool) (adapter : ClerkAdapterInterface)
    (tenantId email : String) : Except String (Option UserProfile) :=
  if validIdString tenantId && emailOk email then
    match adapter.getUserByEmail email with
    | Except.error e => Except.error e
    | Except.ok none => Except.ok none
    | Except.ok (some clerkUser) =>
      match isUserInTenant adapter tenantId clerkUser.id with
      | Except.error e => Except.error e
      | Except.ok isMember =>
        if isMember then Except.ok (some (clerkUserToProfile clerkUser tenantId))
        else Except.ok none
  else Except.error "InvalidInput"

/-- Standalone session map. -/
abbrev SessionMap := List (String × SessionContext)

/-- Standalone branch of validateSession: absent record is the invalid
session-not-found outcome; a record whose expiresAt lies strictly before
now is lazily evicted and yields the invalid session-expired outcome;
otherwise the stored context comes back verbatim.  The now argument is
the current time in milliseconds. -/
def validateSessionStandalone (sessions : SessionMap) (now : Int) (sessionId : String) :
    Except String (SessionValidation × SessionMap) :=
  if validIdString sessionId then
    match mapGet sessions sessionId with
    | none => Except.ok (SessionValidation.invalid "Session not found", sessions)
    | some context =>
      if context.expiresAt < now then
        Except.ok (SessionValidation.invalid "Session expired", mapDelete sessions sessionId)
      else Except.ok (SessionValidation.valid context, sessions)
  else Except.error "InvalidInput"

/-- Standalone service state: the two storage collaborators. -/
structure StandaloneState where
  userStorage : InMemoryUserStorage.UserMap
  sessionStorage : SessionMap
deriving DecidableEq, Repr

/-- Embeds resolveIdentity over the standalone state: validate the
session, throw the invalid-session error on an invalid outcome, fetch the
profile tenant-scoped, throw the user-not-found error on absence, else
assemble the resolution. -/
def resolveIdentityStandalone (st : StandaloneState) (now : Int) (sessionToken : String) :
    Except String (IdentityResolution × StandaloneState) :=
  match validateSessionStandalone st.sessionStorage now sessionToken with
  | Except.error e => Except.error e
  | Except.ok (SessionValidation.invalid reason, _) =>
    Except.error ("Invalid session: " ++ reason)
  | Except.ok (SessionValidation.valid context, sessions2) =>
    let st2 : StandaloneState := { st with sessionStorage := sessions2 }
    match getUserStandalone st2.userStorage context.tenantId context.userId with
    | Except.error e => Except.error e
    | Except.ok none => Except.error "User not found"
    | Except.ok (some profile) =>
      Except.ok ({ userId := profile.userId
                   tenantId := profile.tenantId
                   roles := context.roles
                   profile := profile }, st2)

/-- Embeds assertTenantContext over the standalone state: validate the
session, throw the unauthorized error on an invalid outcome, else return
the minimal tenant context without touching user storage. -/
def assertTenantContextStandalone (st : StandaloneState) (now : Int) (sessionToken : String) :
    Except String (TenantContext × StandaloneState) :=
  match validateSessionStandalone st.sessionStorage now sessionToken with
  | Except.error e => Except.error e
  | Except.ok (SessionValidation.invalid reason, _) =>
    Except.error ("Unauthorized: " ++ reason)
  | Except.ok (SessionValidation.valid context, sessions2) =>
    Except.ok ({ tenantId := context.tenantId
                 userId := context.userId
                 roles := context.roles
                 sessionId := context.sessionId }, { st with sessionStorage := sessions2 })

/-- Delegated-mode service state: the local storage collaborators plus the
configured mock Clerk adapter. -/
structure ClerkModeState where
  userStorage : InMemoryUserStorage.UserMap
  sessionStorage : SessionMap
  clerk : MockClerk
deriving DecidableEq, Repr

/-- Clerk branch of validateSession against the mock adapter: a null
verification is the invalid outcome; otherwise the claims run through
extractTenantContext and the derived context is valid.  The now argument
is the current time in seconds, as the mock compares exp in seconds. -/
def validateSessionClerk (st : ClerkModeState) (now : Int) (sessionId : String) :
    Except String (SessionValidation × ClerkModeState) :=
  if validIdString sessionId then
    match st.clerk.verifySession now sessionId with
    | (none, clerk2) =>
      Except.ok (SessionValidation.invalid "Invalid or expired session",
        { st with clerk := clerk2 })
    | (some claims, clerk2) =>
      let tc := extractTenantContext claims
      Except.ok (SessionValidation.valid
        { sessionId := tc.sessionId
          userId := tc.userId
          tenantId := tc.tenantId
          roles := tc.roles
          issuedAt := tc.issuedAt
          expiresAt := tc.expiresAt }, { st with clerk := clerk2 })
  else Except.error "InvalidInput"

/-- Embeds logout in delegated mode: validate the identifier shape, then
delete from the local session storage only; the configured adapter is
never contacted. -/
def logoutClerkMode (st : ClerkModeState) (sessionId : String) :
    Except String ClerkModeState :=
  if validIdString sessionId then
    Except.ok { st with sessionStorage := mapDelete st.sessionStorage sessionId }
  else Except.error "InvalidInput"

end IdentityService

/-! Accepted-shape descriptions of the cleaned phone input, used to state
what normalizeNigerianPhone accepts.  They follow the four source
patterns, with the bare national shape explicitly excluding the 234
country-code prefix that the second pattern captures first. -/

/-- Shape one: canonical international form, plus-234 then ten digits. -/
def shapePlusIntl (c : List Char) : Prop :=
  ∃ d, c = '+' :: '2' :: '3' :: '4' :: d ∧ d.length = 10 ∧ d.all isDigitChar = true

/-- Shape two: international form without the plus, 234 then ten digits. -/
def shapeIntlNoPlus (c : List Char) : Prop :=
  ∃ d, c = '2' :: '3' :: '4' :: d ∧ d.length = 10 ∧ d.all isDigitChar = true

/-- Shape three: national form, trunk 0 then ten digits (11 digits total). -/
def shapeTrunkNational (c : List Char) : Prop :=
  ∃ d, c = '0' :: d ∧ d.length = 10 ∧ d.all isDigitChar = true

/-- Shape four: bare national form, exactly ten digits, not beginning with
the 234 country code (such strings are captured, and rejected, by the
without-plus international pattern, which matches first). -/
def shapeBareNational (c : List Char) : Prop :=
  c.length = 10 ∧ c.all isDigitChar = true ∧ c.take 3 ≠ ['2', '3', '4']

/-! Concrete fixtures used by the closed theorems below. -/

/-- Profile stored under tenant a whose secondary phone key collides with
the primary key computed for tenant a:phone. -/
def c1Profile : UserProfile :=
  { userId := "u1", tenantId := "a", phone := "+2348012345678" }

/-- Claims bundle of the role-assembly scenario: org orgA, primary role
admin, one metadata role billing. -/
def c6Claims : ClerkSessionClaims :=
  { sub := "user_1", sid := "sess_1", org_id := some "orgA", org_role := some "admin",
    metadata := some { roles := some ["billing"] }, iat := 0, exp := 0 }

/-- Adapter whose directory rejects every member-list query, simulating an
unreachable directory collaborator at the promise level. -/
def unreachableDirectoryAdapter : ClerkAdapterInterface :=
  { verifySession := fun _ => Except.ok none
    getUser := fun _ => Except.ok none
    getUserByEmail := fun _ => Except.ok none
    getUserByPhone := fun _ => Except.ok none
    listOrganizationMembers := fun _ => Except.error "directory unreachable" }

/-- Adapter whose directory answers every member-list query with the empty
list, the way the mock simulates an unknown or unreachable tenant; its
user fetch rejects, so any fetch attempt would surface as an error. -/
def emptyDirectoryAdapter : ClerkAdapterInterface :=
  { verifySession := fun _ => Except.ok none
    getUser := fun _ => Except.error "user fetch must not happen"
    getUserByEmail := fun _ => Except.ok none
    getUserByPhone := fun _ => Except.ok none
    listOrganizationMembers := fun _ => Except.ok [] }

/-- Clerk user resolvable globally by phone and email. -/
def c4User : ClerkUser :=
  { id := "u1", phoneNumbers := [("p1", "+2348012345678")],
    emailAddresses := [("e1", "user1@example.com")] }

/-- Some other user, the only member of the queried tenant. -/
def c4Other : ClerkUser := { id := "u2" }

/-- Adapter for the membership-gating witness: the queried tenant has only
c4Other as member, c4User resolves globally by phone and email, and any
direct user fetch rejects (so a successful run proves no fetch happens). -/
def c4Adapter : ClerkAdapterInterface :=
  { verifySession := fun _ => Except.ok none
    getUser := fun _ => Except.error "user fetch must not happen"
    getUserByEmail := fun e =>
      if e == "user1@example.com" then Except.ok (some c4User) else Except.ok none
    getUserByPhone := fun p =>
      if p == "+2348012345678" then Except.ok (some c4User) else Except.ok none
    listOrganizationMembers := fun _ => Except.ok [c4Other] }

/-- Stored standalone session expiring at instant 5. -/
def c2Context : SessionContext :=
  { sessionId := "s1", userId := "u1", tenantId := "t1", roles := [],
    issuedAt := 0, expiresAt := 5 }

/-- Empty standalone state: no users, no sessions. -/
def c5State : IdentityService.StandaloneState :=
  { userStorage := [], sessionStorage := [] }

/-- Claims the mock identity provider holds for the logout scenario,
expiring at second 100. -/
def c10Claims : ClerkSessionClaims :=
  { sub := "u1", sid := "sess_1", org_id := some "T1", iat := 0, exp := 100 }

/-- Local session record mirroring the provider session of the logout
scenario. -/
def c10Session : SessionContext :=
  { sessionId := "tok1", userId := "u1", tenantId := "T1", roles := [],
    issuedAt := 0, expiresAt := 100000 }

/-- Delegated-mode state for the logout scenario: the token is known both
to the local session storage and to the mock identity provider. -/
def c10State : IdentityService.ClerkModeState :=
  { userStorage := []
    sessionStorage := [("tok1", c10Session)]
    clerk := { sessions := [("tok1", c10Claims)] } }

/-! Helper lemmas. -/

/-- A take of the length of a concrete list equals that list exactly when
it is a prefix. -/
theorem take_eq_prefix_iff (pre c : List Char) :
    c.take pre.length = pre ↔ ∃ t, c = pre ++ t := by
  constructor
  · intro h
    have h2 := List.take_append_drop pre.length c
    rw [h] at h2
    exact ⟨c.drop pre.length, h2.symm⟩
  · rintro ⟨t, rfl⟩
    exact List.take_left pre t

/-- Digits survive the cleaning filter. -/
theorem stripPhonePunct_eq_false_of_digit (c : Char) (h : isDigitChar c = true) :
    stripPhonePunct c = false := by
  have hs : ∀ d : Char, isDigitChar d = false → c ≠ d := by
    intro d hd hcd
    subst hcd
    rw [h] at hd
    cases hd
  simp only [stripPhonePunct, Bool.or_eq_false_iff, beq_eq_false_iff_ne]
  and_intros <;> exact hs _ (by decide)

/-- Cleaning is the identity on a canonical e164 value: a plus sign
followed by digits contains nothing the cleaning filter removes. -/
theorem stripPhone_canonical (d : List Char) (hd : d.all isDigitChar = true) :
    stripPhone ('+' :: '2' :: '3' :: '4' :: d) = '+' :: '2' :: '3' :: '4' :: d := by
  apply List.filter_eq_self.mpr
  intro a ha
  simp only [List.mem_cons] at ha
  rcases ha with rfl | rfl | rfl | rfl | hmem
  · decide
  · decide
  · decide
  · decide
  · rw [stripPhonePunct_eq_false_of_digit a (List.all_eq_true.mp hd a hmem)]
    rfl

/-- Every successful normalization returns the canonical e164 shape:
plus-234 followed by exactly ten digits. -/
theorem normalize_ok_shape (s r : List Char) (h : normalizeNigerianPhone s = Except.ok r) :
    ∃ d, r = '+' :: '2' :: '3' :: '4' :: d ∧ d.length = 10 ∧ d.all isDigitChar = true := by
  simp only [normalizeNigerianPhone] at h
  split at h
  · next hc1 =>
    obtain ⟨t, hct⟩ := (take_eq_prefix_iff ['+', '2', '3', '4'] (stripPhone s)).mp hc1
    rw [hct] at h
    split at h
    · next hc2 =>
      injection h with hr
      exact ⟨t, hr.symm, hc2.1, hc2.2⟩
    · cases h
  · split at h
    · next hc1 hc2 =>
      obtain ⟨t, hct⟩ := (take_eq_prefix_iff ['2', '3', '4'] (stripPhone s)).mp hc2
      rw [hct] at h
      split at h
      · next hc3 =>
        injection h with hr
        exact ⟨t, hr.symm, hc3.1, hc3.2⟩
      · cases h
    · split at h
      · next hc3 =>
        obtain ⟨hh, hlen, hall⟩ := hc3
        obtain ⟨t, hct⟩ := (take_eq_prefix_iff ['0'] (stripPhone s)).mp hh
        rw [hct] at h
        injection h with hr
        refine ⟨t, hr.symm, ?_, ?_⟩
        · rw [hct] at hlen
          simpa using hlen
        · rw [hct] at hall
          simp only [List.cons_append, List.nil_append, List.all_cons,
            Bool.and_eq_true] at hall
          exact hall.2
      · split at h
        · next hc4 =>
          injection h with hr
          exact ⟨stripPhone s, hr.symm, hc4.1, hc4.2⟩
        · cases h

/-- Evaluation of normalizeNigerianPhone when the cleaned input is already
canonical international. -/
theorem normalize_eval_plus (s d : List Char) (hs : stripPhone s = '+' :: '2' :: '3' :: '4' :: d)
    (hl : d.length = 10) (hd : d.all isDigitChar = true) :
    normalizeNigerianPhone s = Except.ok ('+' :: '2' :: '3' :: '4' :: d) := by
  simp only [normalizeNigerianPhone, hs]
  rw [if_pos (show List.take 4 ('+' :: '2' :: '3' :: '4' :: d) = ['+', '2', '3', '4'] from rfl),
    if_pos ⟨hl, hd⟩]

/-- Evaluation of normalizeNigerianPhone on the international form without
the plus. -/
theorem normalize_eval_intl (s d : List Char) (hs : stripPhone s = '2' :: '3' :: '4' :: d)
    (hl : d.length = 10) (hd : d.all isDigitChar = true) :
    normalizeNigerianPhone s = Except.ok ('+' :: '2' :: '3' :: '4' :: d) := by
  have hne1 : ¬(List.take 4 ('2' :: '3' :: '4' :: d) = ['+', '2', '3', '4']) := by
    intro heq
    obtain ⟨t, ht⟩ := (take_eq_prefix_iff ['+', '2', '3', '4'] _).mp heq
    injection ht with h1 _
    exact absurd h1 (by decide)
  simp only [normalizeNigerianPhone, hs]
  rw [if_neg hne1,
    if_pos (show List.take 3 ('2' :: '3' :: '4' :: d) = ['2', '3', '4'] from rfl),
    if_pos ⟨hl, hd⟩]

/-- Evaluation of normalizeNigerianPhone on the trunk-0 national form. -/
theorem normalize_eval_trunk (s d : List Char) (hs : stripPhone s = '0' :: d)
    (hl : d.length = 10) (hd : d.all isDigitChar = true) :
    normalizeNigerianPhone s = Except.ok ('+' :: '2' :: '3' :: '4' :: d) := by
  have hne1 : ¬(List.take 4 ('0' :: d) = ['+', '2', '3', '4']) := by
    intro heq
    obtain ⟨t, ht⟩ := (take_eq_prefix_iff ['+', '2', '3', '4'] _).mp heq
    injection ht with h1 _
    exact absurd h1 (by decide)
  have hne2 : ¬(List.take 3 ('0' :: d) = ['2', '3', '4']) := by
    intro heq
    obtain ⟨t, ht⟩ := (take_eq_prefix_iff ['2', '3', '4'] _).mp heq
    injection ht with h1 _
    exact absurd h1 (by decide)
  simp only [normalizeNigerianPhone, hs]
  rw [if_neg hne1, if_neg hne2, if_pos (show List.take 1 ('0' :: d) = ['0'] ∧
      ('0' :: d).length = 11 ∧ ('0' :: d).all isDigitChar = true from
    ⟨rfl, by simp [hl], by
      simp only [List.all_cons, Bool.and_eq_true]
      exact ⟨by decide, hd⟩⟩)]
  rfl

/-- Evaluation of normalizeNigerianPhone on the bare ten-digit national
form not beginning with the country code. -/
theorem normalize_eval_bare (s c : List Char) (hs : stripPhone s = c)
    (hl : c.length = 10) (hd : c.all isDigitChar = true)
    (hne3 : c.take 3 ≠ ['2', '3', '4']) :
    normalizeNigerianPhone s = Except.ok ('+' :: '2' :: '3' :: '4' :: c) := by
  have hne1 : ¬(List.take 4 c = ['+', '2', '3', '4']) := by
    intro heq
    obtain ⟨t, ht⟩ := (take_eq_prefix_iff ['+', '2', '3', '4'] _).mp heq
    rw [ht] at hd
    simp only [List.cons_append, List.nil_append, List.all_cons, Bool.and_eq_true] at hd
    exact absurd hd.1 (by decide)
  have hne2 : ¬(List.take 1 c = ['0'] ∧ c.length = 11 ∧ c.all isDigitChar = true) := by
    rintro ⟨-, h11, -⟩
    rw [hl] at h11
    exact absurd h11 (by decide)
  simp only [normalizeNigerianPhone, hs]
  rw [if_neg hne1, if_neg hne3, if_neg hne2, if_pos ⟨hl, hd⟩]

/-- Deleting a key from a JS map makes lookups of that key miss. -/
theorem mapGet_mapDelete_self {α : Type} (m : List (String × α)) (k : String) :
    mapGet (mapDelete m k) k = none := by
  have hfind : (mapDelete m k).find? (fun p => p.1 == k) = none := by
    rw [List.find?_eq_none]
    intro x hx
    rw [mapDelete, List.mem_filter] at hx
    simp only [Bool.not_eq_true'] at hx
    intro hc
    rw [hc] at hx
    cases hx.2
  rw [mapGet, hfind]
  rfl

/-- The unauthorized error message never coincides with the
invalid-session error message, whatever the appended reasons. -/
theorem unauthorized_ne_invalidsession (a b : String) :
    ("Unauthorized: " ++ a) ≠ ("Invalid session: " ++ b) := by
  intro h
  have hd := congrArg String.data h
  rw [String.data_append, String.data_append] at hd
  have h1 := congrArg (fun l => l.take 14) hd
  simp only at h1
  rw [List.take_append_of_le_length (by decide),
    List.take_append_of_le_length (by decide)] at h1
  exact absurd h1 (by decide)

/-- The unauthorized error message never coincides with the
user-not-found error message. -/
theorem unauthorized_ne_usernotfound (a : String) :
    ("Unauthorized: " ++ a) ≠ "User not found" := by
  intro h
  have hd := congrArg String.data h
  rw [String.data_append] at hd
  have h1 := congrArg (fun l => l.take 14) hd
  simp only at h1
  rw [List.take_append_of_le_length (by decide)] at h1
  exact absurd h1 (by decide)

/-! Claim theorems. -/

/-- C1: the claim states that no operation invoked with one tenant ever
returns a profile belonging to a different tenant.  The colon-joined
composite storage keys make this fail: the secondary phone key written
for the user u1 of tenant a is the very string that the primary-key
lookup computes for tenant a:phone and user id +2348012345678, so the
standalone getUser invoked with tenant a:phone returns the profile whose
tenantId is a.  This theorem evaluates the embedded code at that failing
input. -/
theorem c1_colon_key_collision_breaks_isolation :
    ((InMemoryUserStorage.createUser [] c1Profile).bind (fun users =>
      IdentityService.getUserStandalone users "a:phone" "+2348012345678")) =
        Except.ok (some c1Profile)
    ∧ c1Profile.tenantId = "a" ∧ ("a" : String) ≠ "a:phone" := by
  refine ⟨rfl, rfl, by decide⟩

/-- C2: in standalone mode, validating a stored session at any instant
strictly after its expiresAt yields the invalid session-expired outcome
and deletes the record; a second validation at any later (or any) instant
yields the invalid session-not-found outcome; and no validation at such
an instant ever yields a valid outcome. -/
theorem c2_session_expiry_monotonic_eviction (sessions : IdentityService.SessionMap)
    (sessionId : String) (S : SessionContext) (now now2 : Int)
    (hid : validIdString sessionId = true)
    (hS : mapGet sessions sessionId = some S)
    (hexp : S.expiresAt < now) :
    IdentityService.validateSessionStandalone sessions now sessionId =
      Except.ok (SessionValidation.invalid "Session expired", mapDelete sessions sessionId) ∧
    mapGet (mapDelete sessions sessionId) sessionId = none ∧
    IdentityService.validateSessionStandalone (mapDelete sessions sessionId) now2 sessionId =
      Except.ok (SessionValidation.invalid "Session not found", mapDelete sessions sessionId) ∧
    (∀ ctx rest, IdentityService.validateSessionStandalone sessions now sessionId ≠
      Except.ok (SessionValidation.valid ctx, rest)) := by
  have h1 : IdentityService.validateSessionStandalone sessions now sessionId =
      Except.ok (SessionValidation.invalid "Session expired", mapDelete sessions sessionId) := by
    simp only [IdentityService.validateSessionStandalone, hid, if_true, hS]
    rw [if_pos hexp]
  refine ⟨h1, mapGet_mapDelete_self sessions sessionId, ?_, ?_⟩
  · simp only [IdentityService.validateSessionStandalone, hid, if_true,
      mapGet_mapDelete_self]
  · intro ctx rest h
    rw [h1] at h
    injection h with h2
    injection h2 with h3 _
    cases h3

/-- C2 witness: a concrete session expiring at instant 5, validated at
instants 6 and then 7. -/
theorem c2_session_expiry_monotonic_eviction_witness :
    validIdString "s1" = true ∧
    mapGet [("s1", c2Context)] "s1" = some c2Context ∧
    c2Context.expiresAt < 6 ∧
    IdentityService.validateSessionStandalone [("s1", c2Context)] 6 "s1" =
      Except.ok (SessionValidation.invalid "Session expired",
        mapDelete [("s1", c2Context)] "s1") ∧
    IdentityService.validateSessionStandalone (mapDelete [("s1", c2Context)] "s1") 7 "s1" =
      Except.ok (SessionValidation.invalid "Session not found",
        mapDelete [("s1", c2Context)] "s1") := by
  have h := c2_session_expiry_monotonic_eviction [("s1", c2Context)] "s1" c2Context 6 7
    (by decide) (by decide) (by decide)
  exact ⟨by decide, by decide, by decide, h.1, h.2.2.1⟩

/-- C3 counterexample: the claim states that a directory collaborator that
fails (its member-list promise rejects) is treated as not-a-member and
getUser returns absent rather than raising.  In the code the awaited
rejection propagates: with a rejecting directory, getUser raises the
directory error and does not return absent. -/
theorem c3_unreachable_directory_raises :
    IdentityService.getUserClerk unreachableDirectoryAdapter "T" "u1" =
      Except.error "directory unreachable" ∧
    IdentityService.getUserClerk unreachableDirectoryAdapter "T" "u1" ≠ Except.ok none := by
  refine ⟨rfl, fun h => ?_⟩
  exact Except.noConfusion ((show IdentityService.getUserClerk unreachableDirectoryAdapter
    "T" "u1" = Except.error "directory unreachable" from rfl).symm.trans h)

/-- C3 (amended): when the directory collaborator answers with an empty
member list for the tenant, the way the test double simulates an unknown
or unreachable tenant, the membership check treats every user as not a
member and getUser returns absent without raising and without consulting
the user-fetch operation, whose behaviour is left arbitrary here. -/
theorem c3_empty_directory_fail_closed (adapter : ClerkAdapterInterface)
    (tenantId userId : String)
    (ht : validIdString tenantId = true) (hu : validIdString userId = true)
    (hdir : adapter.listOrganizationMembers tenantId = Except.ok []) :
    IdentityService.getUserClerk adapter tenantId userId = Except.ok none := by
  simp only [IdentityService.getUserClerk, IdentityService.isUserInTenant, ht, hu, hdir]
  rfl

/-- C3 witness: the empty-directory adapter, whose user fetch would raise
if it were ever consulted, yields absent. -/
theorem c3_empty_directory_fail_closed_witness :
    validIdString "T" = true ∧ validIdString "u1" = true ∧
    emptyDirectoryAdapter.listOrganizationMembers "T" = Except.ok [] ∧
    IdentityService.getUserClerk emptyDirectoryAdapter "T" "u1" = Except.ok none :=
  ⟨by decide, by decide, rfl,
    c3_empty_directory_fail_closed emptyDirectoryAdapter "T" "u1" (by decide) (by decide) rfl⟩

/-- C4: delegated-mode membership gating.  For getUser, a member list not
containing the requested user makes the result absent for every possible
user-fetch behaviour, including a rejecting one, which shows the
membership check gates the fetch.  For getUserByPhone and getUserByEmail,
a user resolved globally through the provider whose id is not in the
member list of the requested tenant also yields absent, the same value a
nonexistent user yields, so cross-tenant lookups are indistinguishable
from missing users. -/
theorem c4_delegated_membership_gating (adapter : ClerkAdapterInterface)
    (emailOk : String → Bool)
    (tenantId userId phone email : String) (np : List Char) (members : List ClerkUser)
    (phoneUser emailUser : ClerkUser)
    (ht : validIdString tenantId = true) (hu : validIdString userId = true)
    (hms : adapter.listOrganizationMembers tenantId = Except.ok members)
    (hnm : ∀ m ∈ members, m.id ≠ userId)
    (hp : normalizeNigerianPhone phone.data = Except.ok np)
    (hpu : adapter.getUserByPhone (String.mk np) = Except.ok (some phoneUser))
    (hpid : phoneUser.id = userId)
    (hek : emailOk email = true)
    (heu : adapter.getUserByEmail email = Except.ok (some emailUser))
    (heid : emailUser.id = userId) :
    IdentityService.getUserClerk adapter tenantId userId = Except.ok none ∧
    IdentityService.getUserByPhoneClerk adapter tenantId phone = Except.ok none ∧
    IdentityService.getUserByEmailClerk emailOk adapter tenantId email = Except.ok none := by
  have hany : members.any (fun m => m.id == userId) = false := by
    rw [List.any_eq_false]
    intro m hm
    simp only [beq_iff_eq]
    exact hnm m hm
  refine ⟨?_, ?_, ?_⟩
  · simp only [IdentityService.getUserClerk, IdentityService.isUserInTenant, ht, hu, hms,
      Bool.and_self, if_true, hany]
    rfl
  · simp only [IdentityService.getUserByPhoneClerk, IdentityService.isUserInTenant, ht,
      if_true, hp, hpu, hms, hpid, hany]
    rfl
  · simp only [IdentityService.getUserByEmailClerk, IdentityService.isUserInTenant, ht, hek,
      Bool.and_self, if_true, heu, hms, heid, hany]
    rfl

/-- C4 witness: tenant T1 has only u2 as member while u1 resolves globally
by phone and email; all three lookups yield absent even though the
adapter would raise on any direct user fetch. -/
theorem c4_delegated_membership_gating_witness :
    validIdString "T1" = true ∧ validIdString "u1" = true ∧
    c4Adapter.listOrganizationMembers "T1" = Except.ok [c4Other] ∧
    (∀ m ∈ [c4Other], m.id ≠ "u1") ∧
    normalizeNigerianPhone (String.data "08012345678") =
      Except.ok (String.data "+2348012345678") ∧
    c4Adapter.getUserByPhone (String.mk (String.data "+2348012345678")) =
      Except.ok (some c4User) ∧
    c4User.id = "u1" ∧
    c4Adapter.getUserByEmail "user1@example.com" = Except.ok (some c4User) ∧
    IdentityService.getUserClerk c4Adapter "T1" "u1" = Except.ok none ∧
    IdentityService.getUserByPhoneClerk c4Adapter "T1" "08012345678" = Except.ok none ∧
    IdentityService.getUserByEmailClerk (fun _ => true) c4Adapter "T1" "user1@example.com" =
      Except.ok none := by
  have h := c4_delegated_membership_gating c4Adapter (fun _ => true) "T1" "u1"
    "08012345678" "user1@example.com"
    (String.data "+2348012345678") [c4Other] c4User c4User
    (by decide) (by decide) (by rfl) (by decide) (by rfl) (by rfl) (by decide) rfl
    (by rfl) (by decide)
  exact ⟨by decide, by decide, by rfl, by decide, by rfl, by rfl, by decide, by rfl,
    h.1, h.2.1, h.2.2⟩

/-- C5: assertTenantContext fails with the unauthorized error exactly on
an invalid validation outcome and on success returns only the minimal
tenant context, independently of the user storage (no profile fetch);
resolveIdentity fails with the invalid-session error on an invalid
outcome and with the user-not-found error when the tenant-scoped profile
lookup comes back absent; and the unauthorized error can never equal
either resolveIdentity error, so the two failure kinds are
distinguishable by the caller. -/
theorem c5_distinct_failure_kinds (st : IdentityService.StandaloneState) (now : Int)
    (sessionToken : String) :
    ((∀ reason rest,
        IdentityService.validateSessionStandalone st.sessionStorage now sessionToken =
          Except.ok (SessionValidation.invalid reason, rest) →
        IdentityService.assertTenantContextStandalone st now sessionToken =
          Except.error ("Unauthorized: " ++ reason) ∧
        IdentityService.resolveIdentityStandalone st now sessionToken =
          Except.error ("Invalid session: " ++ reason))
      ∧ (∀ context rest,
        IdentityService.validateSessionStandalone st.sessionStorage now sessionToken =
          Except.ok (SessionValidation.valid context, rest) →
        IdentityService.assertTenantContextStandalone st now sessionToken =
          Except.ok ({ tenantId := context.tenantId
                       userId := context.userId
                       roles := context.roles
                       sessionId := context.sessionId },
            { st with sessionStorage := rest }) ∧
        (IdentityService.getUserStandalone st.userStorage context.tenantId context.userId =
            Except.ok none →
          IdentityService.resolveIdentityStandalone st now sessionToken =
            Except.error "User not found"))
      ∧ (∀ users,
        (IdentityService.assertTenantContextStandalone
            { st with userStorage := users } now sessionToken).map Prod.fst =
          (IdentityService.assertTenantContextStandalone st now sessionToken).map Prod.fst)
      ∧ (∀ a b : String,
        ("Unauthorized: " ++ a) ≠ ("Invalid session: " ++ b) ∧
        ("Unauthorized: " ++ a) ≠ "User not found")) := by
  refine ⟨?_, ?_, ?_, fun a b =>
    ⟨unauthorized_ne_invalidsession a b, unauthorized_ne_usernotfound a⟩⟩
  · intro reason rest hval
    constructor
    · simp only [IdentityService.assertTenantContextStandalone, hval]
    · simp only [IdentityService.resolveIdentityStandalone, hval]
  · intro context rest hval
    constructor
    · simp only [IdentityService.assertTenantContextStandalone, hval]
    · intro hget
      simp only [IdentityService.resolveIdentityStandalone, hval, hget]
  · intro users
    cases hval : IdentityService.validateSessionStandalone st.sessionStorage now sessionToken with
    | error e =>
      simp only [IdentityService.assertTenantContextStandalone, hval]
    | ok pair =>
      obtain ⟨validation, rest⟩ := pair
      cases validation with
      | invalid reason =>
        simp only [IdentityService.assertTenantContextStandalone, hval]
      | valid context =>
        simp only [IdentityService.assertTenantContextStandalone, hval]
        rfl

/-- C5 witness: on the empty state an unknown token makes validation
invalid with the session-not-found reason, assertTenantContext raises the
unauthorized error and resolveIdentity the invalid-session error. -/
theorem c5_distinct_failure_kinds_witness :
    IdentityService.validateSessionStandalone c5State.sessionStorage 0 "s1" =
      Except.ok (SessionValidation.invalid "Session not found", []) ∧
    IdentityService.assertTenantContextStandalone c5State 0 "s1" =
      Except.error ("Unauthorized: " ++ "Session not found") ∧
    IdentityService.resolveIdentityStandalone c5State 0 "s1" =
      Except.error ("Invalid session: " ++ "Session not found") := by
  have h := (c5_distinct_failure_kinds c5State 0 "s1").1 "Session not found" [] rfl
  exact ⟨rfl, h.1, h.2⟩

/-- C6: role assembly places the primary org role first and appends the
metadata roles list in its given order with no de-duplication; on the
scenario claims (org orgA, primary role admin, metadata role billing) the
extracted roles are the ordered pair admin then billing and the tenant is
orgA. -/
theorem c6_role_assembly_order :
    (∀ (claims : ClerkSessionClaims) (r : String) (ms : List String) (md : ClerkMetadata),
      claims.org_role = some r → claims.metadata = some md → md.roles = some ms →
      (extractTenantContext claims).roles = r :: ms)
    ∧ (extractTenantContext c6Claims).roles = ["admin", "billing"]
    ∧ (extractTenantContext c6Claims).tenantId = "orgA" := by
  refine ⟨?_, rfl, rfl⟩
  intro claims r ms md h1 h2 h3
  simp [extractTenantContext, h1, h2, h3]

/-- C6 witness: the scenario claims applied to the universal part. -/
theorem c6_role_assembly_order_witness :
    c6Claims.org_role = some "admin" ∧
    c6Claims.metadata = some { roles := some ["billing"] } ∧
    (extractTenantContext c6Claims).roles = "admin" :: ["billing"] :=
  ⟨rfl, rfl,
    c6_role_assembly_order.1 c6Claims "admin" ["billing"] { roles := some ["billing"] }
      rfl rfl rfl⟩

/-- C7: extractTenantContext is a pure total function: the source contains
no failure path and performs no timestamp validation, so with the integer
claim timestamps of the model every claims bundle is well-formed and
extraction always returns a TenantContext carrying the subject, the
session id and the second-to-millisecond scaled instants; the clause that
a failure would signal a malformed-claims error holds vacuously because
no input fails. -/
theorem c7_claims_extraction_total_pure (claims : ClerkSessionClaims) :
    (extractTenantContext claims).userId = claims.sub ∧
    (extractTenantContext claims).sessionId = claims.sid ∧
    (extractTenantContext claims).issuedAt = claims.iat * 1000 ∧
    (extractTenantContext claims).expiresAt = claims.exp * 1000 :=
  ⟨rfl, rfl, rfl, rfl⟩

/-- C8 counterexample: the claim states that every all-digit string of
length exactly ten is accepted.  The ten-digit all-digit string beginning
2340000000 is rejected, because the international-without-plus pattern
matches its 234 prefix first and then requires ten further digits. -/
theorem c8_ten_digit_234_prefix_rejected :
    normalizeNigerianPhone ['2', '3', '4', '0', '0', '0', '0', '0', '0', '0'] =
      Except.error invalidPhoneMsg ∧
    (['2', '3', '4', '0', '0', '0', '0', '0', '0', '0'] : List Char).length = 10 ∧
    (['2', '3', '4', '0', '0', '0', '0', '0', '0', '0'] : List Char).all isDigitChar = true :=
  ⟨by rfl, by decide, by decide⟩

/-- C8 (amended): after cleaning, normalization succeeds exactly on the
four shapes: plus-234 then ten digits, 234 then ten digits, eleven digits
starting with the trunk 0, and ten digits not beginning with 234 (a
ten-digit string beginning with 234 is rejected because the
international-without-plus pattern matches first); every success returns
the canonical e164 string, plus-234 followed by ten digits. -/
theorem c8_accepted_phone_shapes (s : List Char) :
    ((∃ r, normalizeNigerianPhone s = Except.ok r) ↔
      (shapePlusIntl (stripPhone s) ∨ shapeIntlNoPlus (stripPhone s) ∨
        shapeTrunkNational (stripPhone s) ∨ shapeBareNational (stripPhone s)))
    ∧ (∀ r, normalizeNigerianPhone s = Except.ok r →
        ∃ d, r = '+' :: '2' :: '3' :: '4' :: d ∧ d.length = 10 ∧ d.all isDigitChar = true) := by
  constructor
  · constructor
    · rintro ⟨r, h⟩
      simp only [normalizeNigerianPhone] at h
      split at h
      · next hc1 =>
        obtain ⟨t, hct⟩ := (take_eq_prefix_iff ['+', '2', '3', '4'] (stripPhone s)).mp hc1
        split at h
        · next hc2 =>
          rw [hct] at hc2
          exact Or.inl ⟨t, hct, hc2.1, hc2.2⟩
        · cases h
      · next hn1 =>
        split at h
        · next hc2 =>
          obtain ⟨t, hct⟩ := (take_eq_prefix_iff ['2', '3', '4'] (stripPhone s)).mp hc2
          split at h
          · next hc3 =>
            rw [hct] at hc3
            exact Or.inr (Or.inl ⟨t, hct, hc3.1, hc3.2⟩)
          · cases h
        · next hn2 =>
          split at h
          · next hc3 =>
            obtain ⟨hh, hlen, hall⟩ := hc3
            obtain ⟨t, hct⟩ := (take_eq_prefix_iff ['0'] (stripPhone s)).mp hh
            refine Or.inr (Or.inr (Or.inl ⟨t, hct, ?_, ?_⟩))
            · rw [hct] at hlen
              simpa using hlen
            · rw [hct] at hall
              simp only [List.cons_append, List.nil_append, List.all_cons,
                Bool.and_eq_true] at hall
              exact hall.2
          · split at h
            · next hc4 =>
              exact Or.inr (Or.inr (Or.inr ⟨hc4.1, hc4.2, hn2⟩))
            · cases h
    · rintro (⟨d, hc, hl, hd⟩ | ⟨d, hc, hl, hd⟩ | ⟨d, hc, hl, hd⟩ | ⟨hl, hd, hne3⟩)
      · exact ⟨_, normalize_eval_plus s d hc hl hd⟩
      · exact ⟨_, normalize_eval_intl s d hc hl hd⟩
      · exact ⟨_, normalize_eval_trunk s d hc hl hd⟩
      · exact ⟨_, normalize_eval_bare s (stripPhone s) rfl hl hd hne3⟩
  · exact fun r h => normalize_ok_shape s r h

/-- C8 witness: the trunk-national input 08012345678 is accepted through
the characterization and its result is canonical. -/
theorem c8_accepted_phone_shapes_witness :
    (∃ r, normalizeNigerianPhone
      ('0' :: '8' :: '0' :: '1' :: '2' :: '3' :: '4' :: '5' :: '6' :: '7' :: ['8']) =
        Except.ok r) ∧
    (∃ d, ('+' :: '2' :: '3' :: '4' :: '8' :: '0' :: '1' :: '2' :: '3' :: '4' :: '5' :: '6' :: '7' :: ['8']) =
      '+' :: '2' :: '3' :: '4' :: d ∧ d.length = 10 ∧ d.all isDigitChar = true) := by
  constructor
  · exact (c8_accepted_phone_shapes
      ('0' :: '8' :: '0' :: '1' :: '2' :: '3' :: '4' :: '5' :: '6' :: '7' :: ['8'])).1.mpr
      (Or.inr (Or.inr (Or.inl ⟨('8' :: '0' :: '1' :: '2' :: '3' :: '4' :: '5' :: '6' :: '7' :: ['8']),
        by decide, by decide, by decide⟩)))
  · exact (c8_accepted_phone_shapes
      ('0' :: '8' :: '0' :: '1' :: '2' :: '3' :: '4' :: '5' :: '6' :: '7' :: ['8'])).2
      _ (by rfl)

/-- C9: normalization is idempotent on its own output, the output has the
exact canonical length, and formatting the output succeeds, reproducing
the stable display form. -/
theorem c9_normalize_idempotent_format_succeeds (s r : List Char)
    (h : normalizeNigerianPhone s = Except.ok r) :
    normalizeNigerianPhone r = Except.ok r ∧ r.length = 14 ∧
      ∃ display, formatNigerianPhone r = Except.ok display := by
  obtain ⟨d, rfl, hl, hd⟩ := normalize_ok_shape s r h
  have hlen14 : ('+' :: '2' :: '3' :: '4' :: d).length = 14 := by simp [hl]
  refine ⟨?_, hlen14, ?_⟩
  · exact normalize_eval_plus _ d (stripPhone_canonical d hd) hl hd
  · simp only [formatNigerianPhone]
    rw [if_pos ⟨rfl, hlen14⟩]
    exact ⟨_, rfl⟩

/-- C9 witness: the concrete input 08012345678 and its canonical result. -/
theorem c9_normalize_idempotent_format_succeeds_witness :
    normalizeNigerianPhone
      ('0' :: '8' :: '0' :: '1' :: '2' :: '3' :: '4' :: '5' :: '6' :: '7' :: ['8']) =
      Except.ok ('+' :: '2' :: '3' :: '4' :: '8' :: '0' :: '1' :: '2' :: '3' :: '4' :: '5' :: '6' :: '7' :: ['8']) ∧
    normalizeNigerianPhone
      ('+' :: '2' :: '3' :: '4' :: '8' :: '0' :: '1' :: '2' :: '3' :: '4' :: '5' :: '6' :: '7' :: ['8']) =
      Except.ok ('+' :: '2' :: '3' :: '4' :: '8' :: '0' :: '1' :: '2' :: '3' :: '4' :: '5' :: '6' :: '7' :: ['8']) ∧
    (∃ display, formatNigerianPhone
      ('+' :: '2' :: '3' :: '4' :: '8' :: '0' :: '1' :: '2' :: '3' :: '4' :: '5' :: '6' :: '7' :: ['8']) =
        Except.ok display) := by
  have h := c9_normalize_idempotent_format_succeeds
    ('0' :: '8' :: '0' :: '1' :: '2' :: '3' :: '4' :: '5' :: '6' :: '7' :: ['8'])
    ('+' :: '2' :: '3' :: '4' :: '8' :: '0' :: '1' :: '2' :: '3' :: '4' :: '5' :: '6' :: '7' :: ['8'])
    (by rfl)
  exact ⟨by rfl, h.1, h.2.2⟩

/-- C10: in delegated mode logout deletes only from the local session
storage: the adapter state and the user storage are untouched, and for a
token the identity provider still recognizes (non-expired stored claims),
validateSession still returns the valid outcome after logout has
completed. -/
theorem c10_logout_preserves_idp_sessions (st : IdentityService.ClerkModeState)
    (tok : String) (now : Int) (claims : ClerkSessionClaims)
    (st2 : IdentityService.ClerkModeState)
    (hid : validIdString tok = true)
    (hclaims : mapGet st.clerk.sessions tok = some claims)
    (hexp : ¬(claims.exp < now))
    (hlogout : IdentityService.logoutClerkMode st tok = Except.ok st2) :
    st2.clerk = st.clerk ∧
    st2.userStorage = st.userStorage ∧
    st2.sessionStorage = mapDelete st.sessionStorage tok ∧
    IdentityService.validateSessionClerk st2 now tok =
      Except.ok (SessionValidation.valid
        { sessionId := (extractTenantContext claims).sessionId
          userId := (extractTenantContext claims).userId
          tenantId := (extractTenantContext claims).tenantId
          roles := (extractTenantContext claims).roles
          issuedAt := (extractTenantContext claims).issuedAt
          expiresAt := (extractTenantContext claims).expiresAt }, st2) := by
  simp only [IdentityService.logoutClerkMode, hid, if_true] at hlogout
  injection hlogout with h2
  subst h2
  refine ⟨rfl, rfl, rfl, ?_⟩
  have hverify : MockClerk.verifySession st.clerk now tok = (some claims, st.clerk) := by
    simp only [MockClerk.verifySession, hclaims]
    rw [if_neg hexp]
  simp only [IdentityService.validateSessionClerk, hid, if_true, hverify]

/-- C10 witness: concrete delegated state whose provider session expires
at second 100, logged out and revalidated at second 50. -/
theorem c10_logout_preserves_idp_sessions_witness :
    validIdString "tok1" = true ∧
    mapGet c10State.clerk.sessions "tok1" = some c10Claims ∧
    ¬(c10Claims.exp < 50) ∧
    IdentityService.logoutClerkMode c10State "tok1" =
      Except.ok { c10State with sessionStorage := mapDelete c10State.sessionStorage "tok1" } ∧
    ({ c10State with
        sessionStorage := mapDelete c10State.sessionStorage "tok1" } :
      IdentityService.ClerkModeState).clerk = c10State.clerk ∧
    IdentityService.validateSessionClerk
        { c10State with sessionStorage := mapDelete c10State.sessionStorage "tok1" } 50 "tok1" =
      Except.ok (SessionValidation.valid
        { sessionId := (extractTenantContext c10Claims).sessionId
          userId := (extractTenantContext c10Claims).userId
          tenantId := (extractTenantContext c10Claims).tenantId
          roles := (extractTenantContext c10Claims).roles
          issuedAt := (extractTenantContext c10Claims).issuedAt
          expiresAt := (extractTenantContext c10Claims).expiresAt },
        { c10State with sessionStorage := mapDelete c10State.sessionStorage "tok1" }) := by
  have h := c10_logout_preserves_idp_sessions c10State "tok1" 50 c10Claims
    { c10State with sessionStorage := mapDelete c10State.sessionStorage "tok1" }
    (by decide) (by decide) (by decide) (by rfl)
  exact ⟨by decide, by decide, by decide, by rfl, h.1, h.2.2.2⟩
